import Mathlib

/-!
Verification of the schedule-entry formatter in
scripts/extract-schedule-data.py.

The script defines one pure function, format_schedule_entry, that
interpolates eight fields into a fixed TypeScript-object-literal template
via a single f-string, plus a main block that prints a banner, a separator
of 50 equal signs, a usage hint, an Example label, and one example
invocation of the formatter.  We embed the function and the printed output
shallowly and settle the claims of the specification about them.
-/

namespace ExtractScheduleData

/-- Shallow embedding of format_schedule_entry from
scripts/extract-schedule-data.py.  The Python body is a single f-string
interpolating the eight parameters into a fixed template; we translate it
as the corresponding concatenation of the constant template segments with
the parameters, rendering the integer week with toString, which matches
the Python str conversion an f-string performs. -/
def format_schedule_entry (zone_code : String) (week : Int)
    (batch date time_slot equipment or_number deadline : String) : String :=
  "    \x7b zoneCode: \x27" ++ zone_code ++ "\x27, week: " ++ toString week
    ++ ", batch: \x27" ++ batch ++ "\x27, date: \x27" ++ date
    ++ "\x27, timeSlot: \x27" ++ time_slot ++ "\x27, equipmentNumber: \x27" ++ equipment
    ++ "\x27, orNumber: \x27" ++ or_number ++ "\x27, deadline: \x27" ++ deadline
    ++ "\x27 \x7d,"

/-- Uncurried form of the formatter, taking the eight arguments as one
tuple.  Used to state relational properties about argument tuples. -/
def format_entry_tuple
    (a : String × Int × String × String × String × String × String × String) : String :=
  format_schedule_entry a.1 a.2.1 a.2.2.1 a.2.2.2.1 a.2.2.2.2.1 a.2.2.2.2.2.1
    a.2.2.2.2.2.2.1 a.2.2.2.2.2.2.2

/-- The hard-coded example entry printed by the main block of the script. -/
def exampleEntry : String :=
  format_schedule_entry "MTR-01" 45 "A" "2024-11-02" "SLOT_2300" "HOK-E25" "5000355448" "16-Nov"

/-- The separator line printed by the main block: the equal-sign string
repeated 50 times. -/
def separatorLine : String := String.join (List.replicate 50 "=")

/-- The arguments of the five print calls of the main block, in order.
Note that the third print call receives a string beginning with an
explicit newline character, so it emits a blank line followed by the
usage hint. -/
def mainPrints : List String :=
  ["Schedule Data Formatter",
   separatorLine,
   "\nUse this script to format schedule entries.",
   "Example:",
   exampleEntry]

/-- The full text written to standard output by the main block: each
print call emits its argument followed by a newline. -/
def mainOutput : String := String.join (mainPrints.map (fun s => s ++ "\n"))

/-- Modelled from the claim (and section 6 of the spec): the output the
claim says the program prints, namely a banner line, the separator line,
a blank line, an Example label, and the formatted example entry, each
terminated by a newline, and nothing else.  This definition follows the
words of the claim; it exists only to be compared with mainOutput, which
is the embedding of the code. -/
def claimedMainOutput : String :=
  String.join
    (["Schedule Data Formatter", separatorLine, "", "Example:", exampleEntry].map
      (fun s => s ++ "\n"))

/-- A tagged field value as described by the spec: string-typed fields
versus the integer field. -/
inductive FieldValue where
  | strVal (s : String)
  | intVal (n : Int)

/-- Modelled from the spec, section 4.1: a string-typed field is rendered
enclosed in single quotes, the integer field is rendered bare. -/
def renderValue : FieldValue → String
  | .strVal s => "\x27" ++ s ++ "\x27"
  | .intVal n => toString n

/-- Modelled from the spec, section 4.1: a key-value pair is rendered as
the key, a colon and a space, and the rendered value. -/
def renderPair (kv : String × FieldValue) : String :=
  kv.1 ++ ": " ++ renderValue kv.2

/-- Modelled from the spec, sections 4.1 and 8: one line holding the
rendered key-value pairs, separated by comma-space, in braces with the
leading four-space indentation and the trailing comma of an
array-literal context. -/
def renderEntryLine (pairs : List (String × FieldValue)) : String :=
  "    \x7b " ++ String.intercalate ", " (pairs.map renderPair) ++ " \x7d,"

/-- Modelled from the spec, section 4.1: the eight key-value pairs of an
entry, with the fixed keys in their fixed order, seven string-typed
fields and the integer-typed week. -/
def specEntryPairs (zone_code : String) (week : Int)
    (batch date time_slot equipment or_number deadline : String) :
    List (String × FieldValue) :=
  [("zoneCode", .strVal zone_code),
   ("week", .intVal week),
   ("batch", .strVal batch),
   ("date", .strVal date),
   ("timeSlot", .strVal time_slot),
   ("equipmentNumber", .strVal equipment),
   ("orNumber", .strVal or_number),
   ("deadline", .strVal deadline)]

end ExtractScheduleData

namespace ExtractScheduleData

set_option maxRecDepth 16384

/-- C1: calling the formatter with the example arguments returns exactly
the documented line, byte for byte, including the four leading spaces and
the trailing comma. -/
theorem format_example_exact :
    format_schedule_entry "MTR-01" 45 "A" "2024-11-02" "SLOT_2300"
        "HOK-E25" "5000355448" "16-Nov" =
      "    \x7b zoneCode: \x27MTR-01\x27, week: 45, batch: \x27A\x27, date: \x272024-11-02\x27, timeSlot: \x27SLOT_2300\x27, equipmentNumber: \x27HOK-E25\x27, orNumber: \x275000355448\x27, deadline: \x2716-Nov\x27 \x7d," := by
  decide

/-- C2: for every combination of the eight field values, the output of the
formatter is exactly the rendering of the eight key-value pairs in the
fixed order zoneCode, week, batch, date, timeSlot, equipmentNumber,
orNumber, deadline, each string field single-quoted and the week field
bare, joined by comma-space, wrapped in braces with the leading
indentation and terminated by the trailing comma. -/
theorem format_matches_spec_template (zc : String) (w : Int)
    (b d ts e o dl : String) :
    format_schedule_entry zc w b d ts e o dl =
      renderEntryLine (specEntryPairs zc w b d ts e o dl) := by
  apply String.ext
  simp [format_schedule_entry, renderEntryLine, specEntryPairs, renderPair, renderValue,
    String.intercalate, String.intercalate.go, String.data_append]

/-- C3 counterexample: the output of the main block is not the text the
claim describes, because the code also prints the usage-hint line between
the blank line and the Example label. -/
theorem main_output_ne_claimed : mainOutput ≠ claimedMainOutput := by
  decide

/-- C3 amended: running the program with no arguments prints, in order, the
banner line, a separator line of 50 equal signs, a blank line, the
usage-hint line, the Example label, and the formatted example entry, each
on its own line, and nothing else. -/
theorem main_output_exact :
    mainOutput =
      "Schedule Data Formatter\n" ++ String.mk (List.replicate 50 '=')
        ++ "\n\nUse this script to format schedule entries.\nExample:\n    \x7b zoneCode: \x27MTR-01\x27, week: 45, batch: \x27A\x27, date: \x272024-11-02\x27, timeSlot: \x27SLOT_2300\x27, equipmentNumber: \x27HOK-E25\x27, orNumber: \x275000355448\x27, deadline: \x2716-Nov\x27 \x7d,\n" := by
  decide

/-- C4: the formatter is a pure total function: on every input it returns
exactly one result string, with no reachable error outcome.  Totality is
witnessed by the embedding itself being a total function into String
rather than into an error-carrying type, and the unique result is the
value of the function. -/
theorem format_total (zc : String) (w : Int) (b d ts e o dl : String) :
    ∃! s : String, format_schedule_entry zc w b d ts e o dl = s :=
  ⟨format_schedule_entry zc w b d ts e o dl, rfl, fun _ h => h.symm⟩

/-- C5: every field value passes into the output verbatim at its template
position, with no escaping or filtering: the output is the constant
template segments with the raw field values interleaved, for all inputs,
including strings containing single quotes.  The second conjunct
instantiates this at a batch value with an embedded single quote, which
lands in the output verbatim and breaks the object-literal quoting. -/
theorem format_fields_verbatim :
    (∀ (zc : String) (w : Int) (b d ts e o dl : String),
        format_schedule_entry zc w b d ts e o dl =
          "    \x7b zoneCode: \x27" ++ zc ++ "\x27, week: " ++ toString w
            ++ ", batch: \x27" ++ b ++ "\x27, date: \x27" ++ d
            ++ "\x27, timeSlot: \x27" ++ ts ++ "\x27, equipmentNumber: \x27" ++ e
            ++ "\x27, orNumber: \x27" ++ o ++ "\x27, deadline: \x27" ++ dl
            ++ "\x27 \x7d,") ∧
      format_schedule_entry "Z" 1 "A\x27B" "D" "T" "E" "O" "L" =
        "    \x7b zoneCode: \x27Z\x27, week: 1, batch: \x27A\x27B\x27, date: \x27D\x27, timeSlot: \x27T\x27, equipmentNumber: \x27E\x27, orNumber: \x27O\x27, deadline: \x27L\x27 \x7d," := by
  exact ⟨fun zc w b d ts e o dl => rfl, by decide⟩

/-- C6: for each of the seven string fields, passing the empty string
makes the formatter render that field as an empty-quoted pair rather than
fail: for every choice of the remaining arguments the output decomposes
around the empty-quoted pair of that field. -/
theorem format_empty_fields :
    (∀ (w : Int) (b d ts e o dl : String), ∃ p q,
        format_schedule_entry "" w b d ts e o dl = p ++ "zoneCode: \x27\x27" ++ q) ∧
    (∀ (zc : String) (w : Int) (d ts e o dl : String), ∃ p q,
        format_schedule_entry zc w "" d ts e o dl = p ++ "batch: \x27\x27" ++ q) ∧
    (∀ (zc : String) (w : Int) (b ts e o dl : String), ∃ p q,
        format_schedule_entry zc w b "" ts e o dl = p ++ "date: \x27\x27" ++ q) ∧
    (∀ (zc : String) (w : Int) (b d e o dl : String), ∃ p q,
        format_schedule_entry zc w b d "" e o dl = p ++ "timeSlot: \x27\x27" ++ q) ∧
    (∀ (zc : String) (w : Int) (b d ts o dl : String), ∃ p q,
        format_schedule_entry zc w b d ts "" o dl = p ++ "equipmentNumber: \x27\x27" ++ q) ∧
    (∀ (zc : String) (w : Int) (b d ts e dl : String), ∃ p q,
        format_schedule_entry zc w b d ts e "" dl = p ++ "orNumber: \x27\x27" ++ q) ∧
    (∀ (zc : String) (w : Int) (b d ts e o : String), ∃ p q,
        format_schedule_entry zc w b d ts e o "" = p ++ "deadline: \x27\x27" ++ q) := by
  refine ⟨fun w b d ts e o dl => ⟨"    \x7b ",
      ", week: " ++ toString w ++ ", batch: \x27" ++ b ++ "\x27, date: \x27" ++ d
        ++ "\x27, timeSlot: \x27" ++ ts ++ "\x27, equipmentNumber: \x27" ++ e
        ++ "\x27, orNumber: \x27" ++ o ++ "\x27, deadline: \x27" ++ dl ++ "\x27 \x7d,", ?_⟩,
    fun zc w d ts e o dl => ⟨"    \x7b zoneCode: \x27" ++ zc ++ "\x27, week: "
        ++ toString w ++ ", ",
      ", date: \x27" ++ d ++ "\x27, timeSlot: \x27" ++ ts
        ++ "\x27, equipmentNumber: \x27" ++ e ++ "\x27, orNumber: \x27" ++ o
        ++ "\x27, deadline: \x27" ++ dl ++ "\x27 \x7d,", ?_⟩,
    fun zc w b ts e o dl => ⟨"    \x7b zoneCode: \x27" ++ zc ++ "\x27, week: "
        ++ toString w ++ ", batch: \x27" ++ b ++ "\x27, ",
      ", timeSlot: \x27" ++ ts ++ "\x27, equipmentNumber: \x27" ++ e
        ++ "\x27, orNumber: \x27" ++ o ++ "\x27, deadline: \x27" ++ dl ++ "\x27 \x7d,", ?_⟩,
    fun zc w b d e o dl => ⟨"    \x7b zoneCode: \x27" ++ zc ++ "\x27, week: "
        ++ toString w ++ ", batch: \x27" ++ b ++ "\x27, date: \x27" ++ d ++ "\x27, ",
      ", equipmentNumber: \x27" ++ e ++ "\x27, orNumber: \x27" ++ o
        ++ "\x27, deadline: \x27" ++ dl ++ "\x27 \x7d,", ?_⟩,
    fun zc w b d ts o dl => ⟨"    \x7b zoneCode: \x27" ++ zc ++ "\x27, week: "
        ++ toString w ++ ", batch: \x27" ++ b ++ "\x27, date: \x27" ++ d
        ++ "\x27, timeSlot: \x27" ++ ts ++ "\x27, ",
      ", orNumber: \x27" ++ o ++ "\x27, deadline: \x27" ++ dl ++ "\x27 \x7d,", ?_⟩,
    fun zc w b d ts e dl => ⟨"    \x7b zoneCode: \x27" ++ zc ++ "\x27, week: "
        ++ toString w ++ ", batch: \x27" ++ b ++ "\x27, date: \x27" ++ d
        ++ "\x27, timeSlot: \x27" ++ ts ++ "\x27, equipmentNumber: \x27" ++ e ++ "\x27, ",
      ", deadline: \x27" ++ dl ++ "\x27 \x7d,", ?_⟩,
    fun zc w b d ts e o => ⟨"    \x7b zoneCode: \x27" ++ zc ++ "\x27, week: "
        ++ toString w ++ ", batch: \x27" ++ b ++ "\x27, date: \x27" ++ d
        ++ "\x27, timeSlot: \x27" ++ ts ++ "\x27, equipmentNumber: \x27" ++ e
        ++ "\x27, orNumber: \x27" ++ o ++ "\x27, ",
      " \x7d,", ?_⟩⟩ <;>
    (apply String.ext
     simp [format_schedule_entry, String.data_append])

/-- C7: for every nonpositive week value the formatter renders the week
bare, as its decimal representation with no quotes around it, at its
template position, with all other fields rendered as usual. -/
theorem format_week_nonpositive_bare (zc : String) (w : Int)
    (b d ts e o dl : String) (h : w ≤ 0) :
    format_schedule_entry zc w b d ts e o dl =
      "    \x7b zoneCode: \x27" ++ zc ++ "\x27, week: " ++ toString w
        ++ ", batch: \x27" ++ b ++ "\x27, date: \x27" ++ d
        ++ "\x27, timeSlot: \x27" ++ ts ++ "\x27, equipmentNumber: \x27" ++ e
        ++ "\x27, orNumber: \x27" ++ o ++ "\x27, deadline: \x27" ++ dl
        ++ "\x27 \x7d," := rfl

/-- Witness for C7 at the concrete week value -3: the hypothesis holds and
the formatter renders the week as the bare text -3. -/
theorem format_week_nonpositive_bare_witness :
    format_schedule_entry "MTR-01" (-3) "A" "2024-11-02" "SLOT_2300"
        "HOK-E25" "5000355448" "16-Nov" =
      "    \x7b zoneCode: \x27" ++ "MTR-01" ++ "\x27, week: " ++ toString (-3 : Int)
        ++ ", batch: \x27" ++ "A" ++ "\x27, date: \x27" ++ "2024-11-02"
        ++ "\x27, timeSlot: \x27" ++ "SLOT_2300" ++ "\x27, equipmentNumber: \x27" ++ "HOK-E25"
        ++ "\x27, orNumber: \x27" ++ "5000355448" ++ "\x27, deadline: \x27" ++ "16-Nov"
        ++ "\x27 \x7d," :=
  format_week_nonpositive_bare "MTR-01" (-3) "A" "2024-11-02" "SLOT_2300"
    "HOK-E25" "5000355448" "16-Nov" (by decide)

/-- C8: the formatter is deterministic: two calls with identical arguments
return byte-identical output strings. -/
theorem format_deterministic
    (a b : String × Int × String × String × String × String × String × String)
    (h : a = b) : format_entry_tuple a = format_entry_tuple b := by
  rw [h]

/-- Witness for C8 at a concrete argument tuple: two calls made with the
example arguments return the same string. -/
theorem format_deterministic_witness :
    format_entry_tuple ("MTR-01", 45, "A", "2024-11-02", "SLOT_2300", "HOK-E25", "5000355448", "16-Nov") =
      format_entry_tuple ("MTR-01", 45, "A", "2024-11-02", "SLOT_2300", "HOK-E25", "5000355448", "16-Nov") :=
  format_deterministic
    ("MTR-01", 45, "A", "2024-11-02", "SLOT_2300", "HOK-E25", "5000355448", "16-Nov")
    ("MTR-01", 45, "A", "2024-11-02", "SLOT_2300", "HOK-E25", "5000355448", "16-Nov")
    rfl

/-- C9: the formatter is not injective: two distinct argument tuples,
differing by quote-and-key text embedded in the batch and date fields,
produce the identical output string, so the rendered text does not
determine the fields. -/
theorem format_not_injective :
    ∃ a b : String × Int × String × String × String × String × String × String,
      a ≠ b ∧ format_entry_tuple a = format_entry_tuple b := by
  refine ⟨("Z", 1, "B\x27, date: \x27D", "E", "T", "Q", "O", "L"),
          ("Z", 1, "B", "D\x27, date: \x27E", "T", "Q", "O", "L"), by simp, by decide⟩

/-- C10: the length of the output is a fixed constant, the total length of
the template segments, plus the lengths of the string renderings of the
eight arguments. -/
theorem format_length_affine :
    ∃ c : Nat, ∀ (zc : String) (w : Int) (b d ts e o dl : String),
      (format_schedule_entry zc w b d ts e o dl).length =
        c + zc.length + (toString w).length + b.length + d.length
          + ts.length + e.length + o.length + dl.length := by
  refine ⟨113, fun zc w b d ts e o dl => ?_⟩
  simp only [format_schedule_entry, String.length_append,
    show ("    \x7b zoneCode: \x27" : String).length = 17 from rfl,
    show ("\x27, week: " : String).length = 9 from rfl,
    show ((", batch: \x27" : String)).length = 10 from rfl,
    show ("\x27, date: \x27" : String).length = 10 from rfl,
    show ("\x27, timeSlot: \x27" : String).length = 14 from rfl,
    show ("\x27, equipmentNumber: \x27" : String).length = 21 from rfl,
    show ("\x27, orNumber: \x27" : String).length = 14 from rfl,
    show ("\x27, deadline: \x27" : String).length = 14 from rfl,
    show ("\x27 \x7d," : String).length = 4 from rfl]
  omega

end ExtractScheduleData
